import Mathlib

/-!
# node_pcap binding (`pcap_binding.cc`): a shallow embedding

The binding glues three worlds together: the JavaScript caller (V8 values,
exceptions), the process-wide `sessions` vector, and libpcap.  The embedding
keeps the code of the binding as Lean functions and makes the two outer worlds
explicit:

* JavaScript arguments are values of `JsValue`; a call ends in an `Outcome`:
  a returned value, a thrown exception, or undefined behaviour of the C++
  program (an unchecked `sessions[i]`, a null dereference, the use of a capture
  handle after `pcap_close`).
* every answer libpcap gives during a call (return codes, handles, the packets
  a poll hands over) is an input of the embedded function, so a theorem that
  quantifies over these inputs holds for every behaviour of the library.
-/

namespace PcapBinding

/-! ## Constants of the system headers -/

/-- Constants that `pcap_binding.cc` takes from `pcap/pcap.h`, `pcap/bpf.h` and
`sys/socket.h`.  The headers are not part of the repository, so the values are
parameters of the embedding. -/
structure Consts where
  PCAP_ERRBUF_SIZE : Nat
  PCAP_IF_LOOPBACK : Nat
  AF_INET : Nat
  DLT_NULL : Int
  DLT_EN10MB : Int
  DLT_IEEE802_11_RADIO : Int
  DLT_RAW : Int

/-- The values of the constants on Linux with libpcap 1.x. -/
def Consts.linux : Consts :=
  { PCAP_ERRBUF_SIZE := 256, PCAP_IF_LOOPBACK := 1, AF_INET := 2,
    DLT_NULL := 0, DLT_EN10MB := 1, DLT_IEEE802_11_RADIO := 127, DLT_RAW := 12 }

/-! ## Machine integers -/

/-- Conversion of a C integer to `uint32_t`, as at a call of
`Integer::NewFromUnsigned(uint32_t)`. -/
def toUint32 (x : Int) : Nat := (x % 4294967296).toNat

/-- Conversion of a C integer to `int32_t`, as at a call of
`Int32::New(int32_t)` (two's complement wrap-around). -/
def toInt32 (x : Int) : Int :=
  let m := x % 4294967296
  if m < 2147483648 then m else m - 4294967296

/-! ## JavaScript values and call outcomes -/

/-- A node `Buffer`: the address of its storage and the bytes stored there. -/
structure Buffer where
  data : Nat
  bytes : List Nat
deriving DecidableEq, Repr

/-- The JavaScript values the binding tells apart.  `number x` is a number with
the integral value `x`; `double` stands for every other number. -/
inductive JsValue where
  | undefined
  | number (x : Int)
  | double
  | string (s : String)
  | func (f : Nat)
  | buffer (b : Buffer)
  | object
deriving DecidableEq, Repr

/-- The expression `args[i]`: V8 yields `undefined` past the last argument. -/
def arg (args : List JsValue) (i : Nat) : JsValue := args.getD i JsValue.undefined

/-- The test `v->IsString()`. -/
def IsString : JsValue → Bool
  | .string _ => true
  | _ => false

/-- The test `v->IsInt32()`: a number with an integral value in the `int32_t` range. -/
def IsInt32 : JsValue → Bool
  | .number x => decide (-2147483648 ≤ x ∧ x < 2147483648)
  | _ => false

/-- The test `v->IsFunction()`. -/
def IsFunction : JsValue → Bool
  | .func _ => true
  | _ => false

/-- The test `Buffer::HasInstance(v)`. -/
def HasInstance : JsValue → Bool
  | .buffer _ => true
  | _ => false

/-- The conversion `v->Int32Value()`. -/
def Int32Value : JsValue → Int
  | .number x => toInt32 x
  | _ => 0

/-- The conversion `String::Utf8Value(v->ToString())` of a string value. -/
def Utf8Value : JsValue → String
  | .string s => s
  | _ => ""

/-- The cast `Local<Function>::Cast(v)`: the identity of the function. -/
def CastFunction : JsValue → Nat
  | .func f => f
  | _ => 0

/-- The object behind `v->ToObject()` when `v` is a `Buffer`. -/
def ToBuffer : JsValue → Buffer
  | .buffer b => b
  | _ => { data := 0, bytes := [] }

/-- The two exception classes the binding throws, with their message. -/
inductive Exn where
  | TypeError (msg : String)
  | Error (msg : String)
deriving DecidableEq, Repr

/-- How a call of a binding function ends. -/
inductive Outcome (α : Type) where
  | returned (v : α)
  | threw (e : Exn)
  | undefinedBehavior
deriving DecidableEq, Repr

/-! ## Sessions -/

/-- The result of `pcap_compile`, kept symbolically: the expression, the
optimize flag and the netmask argument the program was compiled with. -/
structure bpf_program where
  filter : String
  optimize : Int
  netmask : Nat
deriving DecidableEq, Repr

/-- The structure `pcap_session_data`.  Pointers are addresses (`0` is `NULL`),
`callback` is the identity of the bound function. -/
structure pcap_session_data where
  mask : Nat
  net : Nat
  fp : bpf_program
  pcap_handle : Nat
  callback : Nat
  buffer_data : Nat
  buffer_length : Nat
deriving DecidableEq, Repr

/-- The state that outlives a call: the global vector `sessions`, the capture
handles that were given to `pcap_close` and not handed out again since, and the
lines written to `stderr`. -/
structure World where
  sessions : List pcap_session_data
  released : List Nat
  stderr : List String
deriving DecidableEq, Repr

/-- The state of a freshly loaded module. -/
def World.empty : World := { sessions := [], released := [], stderr := [] }

/-- The access `sessions[session_id]` of `std::vector`: no bounds check, so an
index outside `0 .. size-1` has no defined result (`none`). -/
def lookup (sessions : List pcap_session_data) (session_id : Int) : Option pcap_session_data :=
  if 0 ≤ session_id ∧ session_id < sessions.length then sessions.get? session_id.toNat else none

/-! ## Packet delivery: `PacketReady` -/

/-- The header libpcap passes with a packet.  `tv_sec` and `tv_usec` are C
`long`s, `caplen` and `len` are `bpf_u_int32`. -/
structure pcap_pkthdr where
  tv_sec : Int
  tv_usec : Int
  caplen : Nat
  len : Nat
deriving DecidableEq, Repr

/-- The JavaScript object `packet_header` handed to the callback. -/
structure PacketHeader where
  tv_sec : Nat
  tv_usec : Nat
  caplen : Nat
  len : Nat
deriving DecidableEq, Repr

/-- What a dispatch leaves behind for the caller: the bytes of the caller's
buffer and the calls of JavaScript callbacks made so far, oldest first, each
with the function called and its argument. -/
structure Delivery where
  buffer : List Nat
  calls : List (Nat × PacketHeader)
deriving DecidableEq, Repr

/-- The libc function `memcpy(dst, src, n)`: byte `i` of `src` goes to byte `i`
of `dst` for every `i < n`.  A byte past the end of `src` reads as `0` and a
write past the end of `dst` is dropped; both are out of contract in C. -/
def memcpy (dst src : List Nat) : Nat → List Nat
  | 0 => dst
  | n + 1 => (memcpy dst src n).set n (src.getD n 0)

/-- The function `PacketReady` (lines 59-86).  `st.buffer` is the memory
`data->buffer_data` points to.  The callback is taken to return normally. -/
def PacketReady (data : pcap_session_data) (pkthdr : pcap_pkthdr) (packet : List Nat)
    (st : Delivery) : Delivery :=
  let copy_len := pkthdr.caplen
  let copy_len := if copy_len > data.buffer_length then data.buffer_length else copy_len
  let packet_header : PacketHeader :=
    { tv_sec := toUint32 pkthdr.tv_sec, tv_usec := toUint32 pkthdr.tv_usec,
      caplen := pkthdr.caplen, len := pkthdr.len }
  { buffer := memcpy st.buffer packet copy_len,
    calls := st.calls ++ [(data.callback, packet_header)] }

/-! ## The poll: `pcap_dispatch` and `Dispatch` -/

/-- What a capture has to offer when it is polled: the packets it can hand over
now, oldest first, each with its header and bytes, or a failure with the
negative return code of `pcap_dispatch` (`-1` read error, `-2` break). -/
inductive PollResult where
  | packets (ps : List (pcap_pkthdr × List Nat))
  | failed (rc : Int)
deriving DecidableEq, Repr

/-- The libpcap function `pcap_dispatch(p, cnt, callback, user)` as documented in
its manual page: at most `cnt` packets (all of them when `cnt ≤ 0`) are passed
to `callback` in order and their number is returned; on failure the negative
code is returned.  `source p` is what the capture behind `p` offers now. -/
def pcap_dispatch (source : Nat → PollResult) (p : Nat) (cnt : Int)
    (callback : pcap_pkthdr → List Nat → Delivery → Delivery) (user : Delivery) :
    Int × Delivery :=
  match source p with
  | .failed rc => (rc, user)
  | .packets ps =>
    let batch := if cnt ≤ 0 then ps else ps.take cnt.toNat
    (batch.length, batch.foldl (fun st pkt => callback pkt.1 pkt.2 st) user)

/-- The assignments of lines 116-125: the slot is bound to the buffer and the
callback of this call. -/
def Dispatch.bind (slot : pcap_session_data) (buffer_obj : Buffer) (callback : Nat) :
    pcap_session_data :=
  { slot with buffer_data := buffer_obj.data, buffer_length := buffer_obj.bytes.length,
              callback := callback }

/-- Result of `Dispatch`: the outcome, the state afterwards, and the caller's
view (buffer bytes, callback calls). -/
structure DispatchResult where
  outcome : Outcome Nat
  world : World
  delivery : Delivery
deriving DecidableEq, Repr

/-- The function `Dispatch` (lines 88-131, the branch for node 0.3 and later).
The arguments are `(buffer, callback, session_id)`.  Undefined behaviour: an
index outside the vector, and a poll on a handle given to `pcap_close`. -/
def Dispatch (args : List JsValue) (source : Nat → PollResult) (w : World) : DispatchResult :=
  let untouched : Delivery := { buffer := (ToBuffer (arg args 0)).bytes, calls := [] }
  if args.length ≠ 3 then
    ⟨.threw (.TypeError "Dispatch takes exactly three arguments"), w, untouched⟩
  else if !HasInstance (arg args 0) then
    ⟨.threw (.TypeError "First argument must be a buffer"), w, untouched⟩
  else if !IsFunction (arg args 1) then
    ⟨.threw (.TypeError "Second argument must be a function"), w, untouched⟩
  else if !IsInt32 (arg args 2) then
    ⟨.threw (.TypeError "Third argument must be an unsingned int"), w, untouched⟩
  else
    let session_id := Int32Value (arg args 2)
    match lookup w.sessions session_id with
    | none => ⟨.undefinedBehavior, w, untouched⟩
    | some slot =>
      let buffer_obj := ToBuffer (arg args 0)
      let data := Dispatch.bind slot buffer_obj (CastFunction (arg args 1))
      let w1 : World := { w with sessions := w.sessions.set session_id.toNat data }
      if data.pcap_handle ∈ w.released then ⟨.undefinedBehavior, w1, untouched⟩
      else
        let r := pcap_dispatch source data.pcap_handle 1 (PacketReady data) untouched
        ⟨.returned (toUint32 r.1), w1, r.2⟩

/-! ## Opening a session: `Open`, `OpenLive`, `OpenOffline` -/

/-- The answers of libpcap and of the machine during one call of `Open`.
`stack` is the indeterminate initial content of the local variable `data`;
a function named after a libpcap call gives the return value of that call for
its arguments (`0` is `NULL`); the text fields are what the failing call leaves
in `errbuf` or behind `pcap_geterr`. -/
structure OpenEnv where
  stack : pcap_session_data
  pcap_lookupnet : String → Int
  lookupnet_net : Nat
  lookupnet_mask : Nat
  lookupnet_errbuf : String
  pcap_create : String → Nat
  create_errbuf : String
  pcap_set_snaplen : Nat → Int → Int
  pcap_set_promisc : Nat → Int → Int
  pcap_set_buffer_size : Nat → Int → Int
  pcap_set_timeout : Nat → Int → Int
  pcap_activate : Nat → Int
  activate_geterr : String
  pcap_open_offline : String → Nat
  open_offline_errbuf : String
  pcap_setnonblock : Nat → Int → Int
  setnonblock_errbuf : String
  pcap_compile : Nat → String → Int → Nat → Int
  compile_geterr : String
  pcap_setfilter : Nat → bpf_program → Int
  setfilter_geterr : String

/-- Result of `Open`: the outcome (the new session id when it returns) and the
state afterwards. -/
structure OpenResult where
  outcome : Outcome Int
  world : World
deriving DecidableEq, Repr

/-- A handle that libpcap hands out is live again, whatever happened to an
earlier capture at the same address. -/
def acquire (w : World) (p : Nat) : World :=
  { w with released := w.released.filter (fun q => q != p) }

/-- The common tail of `Open` (lines 207-236): non-blocking mode, filter
compilation and installation, registration.  The `ioctl` of the Apple branch
changes nothing that is modelled. -/
def Open.tail (filter : String) (env : OpenEnv) (data : pcap_session_data) (w : World) :
    OpenResult :=
  if env.pcap_setnonblock data.pcap_handle 1 = -1 then
    ⟨.threw (.Error env.setnonblock_errbuf), w⟩
  else if env.pcap_compile data.pcap_handle filter 1 data.net = -1 then
    ⟨.threw (.Error env.compile_geterr), w⟩
  else
    let data : pcap_session_data :=
      { data with fp := { filter := filter, optimize := 1, netmask := data.net } }
    if env.pcap_setfilter data.pcap_handle data.fp = -1 then
      ⟨.threw (.Error env.setfilter_geterr), w⟩
    else
      let ret := toInt32 w.sessions.length
      ⟨.returned ret, { w with sessions := w.sessions ++ [data] }⟩

/-- The lookup of the network of the device (lines 159-163): on failure `net`
and `mask` are set to 0 and a warning goes to `stderr`. -/
def Open.lookupnet (device : String) (env : OpenEnv) (w : World) : pcap_session_data × World :=
  if env.pcap_lookupnet device = -1 then
    ({ env.stack with net := 0, mask := 0 },
     { w with stderr := w.stderr ++
        ["warning: " ++ env.lookupnet_errbuf ++ " - this may not actually work\n"] })
  else
    ({ env.stack with net := env.lookupnet_net, mask := env.lookupnet_mask }, w)

/-- The live branch of `Open` (lines 158-198) followed by the common tail. -/
def Open.live (device filter : String) (buffer_size : Int) (env : OpenEnv) (w : World) :
    OpenResult :=
  let looked := Open.lookupnet device env w
  let data : pcap_session_data := { looked.1 with pcap_handle := env.pcap_create device }
  let w := looked.2
  if data.pcap_handle = 0 then ⟨.threw (.Error env.create_errbuf), w⟩
  else
    let w := acquire w data.pcap_handle
    if env.pcap_set_snaplen data.pcap_handle 65535 ≠ 0 then
      ⟨.threw (.Error "error setting snaplen"), w⟩
    else if env.pcap_set_promisc data.pcap_handle 1 ≠ 0 then
      ⟨.threw (.Error "error setting promiscuous mode"), w⟩
    else if env.pcap_set_buffer_size data.pcap_handle buffer_size ≠ 0 then
      ⟨.threw (.Error "error setting buffer size"), w⟩
    else if env.pcap_set_timeout data.pcap_handle 1000 ≠ 0 then
      ⟨.threw (.Error "error setting read timeout"), w⟩
    else if env.pcap_activate data.pcap_handle ≠ 0 then
      ⟨.threw (.Error env.activate_geterr), w⟩
    else Open.tail filter env data w

/-- The offline branch of `Open` (lines 199-205) followed by the common tail.
The fields `net` and `mask` keep the indeterminate content of the stack. -/
def Open.offline (device filter : String) (env : OpenEnv) (w : World) : OpenResult :=
  let data : pcap_session_data := { env.stack with pcap_handle := env.pcap_open_offline device }
  if data.pcap_handle = 0 then ⟨.threw (.Error env.open_offline_errbuf), w⟩
  else Open.tail filter env data (acquire w data.pcap_handle)

/-- The function `Open` (lines 133-237): argument checks, then the live or the
offline branch. -/
def Open (live : Bool) (args : List JsValue) (env : OpenEnv) (w : World) : OpenResult :=
  if args.length = 3 then
    if !IsString (arg args 0) then
      ⟨.threw (.TypeError "pcap Open: args[0] must be a String"), w⟩
    else if !IsString (arg args 1) then
      ⟨.threw (.TypeError "pcap Open: args[1] must be a String"), w⟩
    else if !IsInt32 (arg args 2) then
      ⟨.threw (.TypeError "pcap Open: args[2] must be a Number"), w⟩
    else
      let device := Utf8Value (arg args 0)
      let filter := Utf8Value (arg args 1)
      let buffer_size := Int32Value (arg args 2)
      if live then Open.live device filter buffer_size env w
      else Open.offline device filter env w
  else
    ⟨.threw (.TypeError "pcap Open: expecting 3 arguments"), w⟩

/-- The function `OpenLive` (lines 279-283). -/
def OpenLive (args : List JsValue) (env : OpenEnv) (w : World) : OpenResult := Open true args env w

/-- The function `OpenOffline` (lines 285-289). -/
def OpenOffline (args : List JsValue) (env : OpenEnv) (w : World) : OpenResult :=
  Open false args env w

/-! ## Queries on a session: `LinkType`, `Close`, `Fileno`, `Stats` -/

/-- The conversion `%d` of `printf` for an `int`. -/
def fmt_d (n : Int) : String :=
  if n < 0 then "-" ++ Nat.repr (-n).toNat else Nat.repr n.toNat

/-- The libc function `snprintf(buf, size, ...)` applied to the fully formatted
text: at most `size - 1` characters are stored. -/
def snprintf (size : Nat) (text : String) : String := String.mk (text.data.take (size - 1))

/-- The function `LinkType` (lines 239-277).  `pcap_datalink p` is the answer of
libpcap for the handle `p`.  The `switch` tries its labels in order. -/
def LinkType (K : Consts) (args : List JsValue) (pcap_datalink : Nat → Int) (w : World) :
    Outcome String :=
  if args.length = 1 then
    if !IsInt32 (arg args 0) then
      .threw (.TypeError "pcap Close: args[0] must be a Number")
    else
      let session_id := Int32Value (arg args 0)
      match lookup w.sessions session_id with
      | none => .undefinedBehavior
      | some data =>
        if data.pcap_handle ∈ w.released then .undefinedBehavior
        else
          let link_type := pcap_datalink data.pcap_handle
          if link_type = K.DLT_NULL then .returned "LINKTYPE_NULL"
          else if link_type = K.DLT_EN10MB then .returned "LINKTYPE_ETHERNET"
          else if link_type = K.DLT_IEEE802_11_RADIO then .returned "LINKTYPE_IEEE802_11_RADIO"
          else if link_type = K.DLT_RAW then .returned "LINKTYPE_RAW"
          else .returned (snprintf K.PCAP_ERRBUF_SIZE ("Unknown linktype " ++ fmt_d link_type))
  else
    .threw (.TypeError "pcap Close: expecting 1 argument")

/-- Result of `Close`: the outcome and the state afterwards. -/
structure CloseResult where
  outcome : Outcome Unit
  world : World
deriving DecidableEq, Repr

/-- The function `Close` (lines 351-367): the handle of the slot goes to
`pcap_close`; the vector is not touched.  Closing a handle twice is undefined. -/
def Close (args : List JsValue) (w : World) : CloseResult :=
  if args.length = 1 then
    if !IsInt32 (arg args 0) then
      ⟨.threw (.TypeError "pcap Close: args[0] must be a Number"), w⟩
    else
      let session_id := Int32Value (arg args 0)
      match lookup w.sessions session_id with
      | none => ⟨.undefinedBehavior, w⟩
      | some data =>
        if data.pcap_handle ∈ w.released then ⟨.undefinedBehavior, w⟩
        else ⟨.returned (), { w with released := data.pcap_handle :: w.released }⟩
  else
    ⟨.threw (.TypeError "pcap Close: expecting 1 argument"), w⟩

/-- The function `Fileno` (lines 369-385).  `pcap_get_selectable_fd p` is the
answer of libpcap for the handle `p`. -/
def Fileno (args : List JsValue) (pcap_get_selectable_fd : Nat → Int) (w : World) :
    Outcome Nat :=
  if args.length = 1 then
    if !IsInt32 (arg args 0) then
      .threw (.TypeError "pcap Fileno: args[0] must be a Number")
    else
      let session_id := Int32Value (arg args 0)
      match lookup w.sessions session_id with
      | none => .undefinedBehavior
      | some data =>
        if data.pcap_handle ∈ w.released then .undefinedBehavior
        else
          let fd := pcap_get_selectable_fd data.pcap_handle
          .returned (toUint32 fd)
  else
    .threw (.TypeError "pcap Fileno: expecting 1 argument")

/-- The structure `pcap_stat`; the counters are `u_int`. -/
structure pcap_stat where
  ps_recv : Nat
  ps_drop : Nat
  ps_ifdrop : Nat
deriving DecidableEq, Repr

/-- The function `Stats` (lines 387-416).  `pcap_stats p` is the return code of
libpcap for the handle `p` and the counters it stores. -/
def Stats (args : List JsValue) (pcap_stats : Nat → Int × pcap_stat) (w : World) :
    Outcome pcap_stat :=
  if args.length = 1 then
    if !IsInt32 (arg args 0) then
      .threw (.TypeError "pcap Stats: args[0] must be a Number")
    else
      let session_id := Int32Value (arg args 0)
      match lookup w.sessions session_id with
      | none => .undefinedBehavior
      | some data =>
        if data.pcap_handle ∈ w.released then .undefinedBehavior
        else
          let r := pcap_stats data.pcap_handle
          if r.1 = -1 then .threw (.Error "Error in pcap_stats")
          else .returned r.2
  else
    .threw (.TypeError "pcap Stats: expecting 1 argument")

/-! ## Devices: `DefaultDevice` -/

/-- The part of `struct sockaddr` the binding reads in `DefaultDevice`. -/
structure sockaddr where
  sa_family : Nat
deriving DecidableEq, Repr

/-- The structure `pcap_addr_t`; a null pointer is `none`. -/
structure pcap_addr where
  addr : Option sockaddr
  netmask : Option sockaddr
  broadaddr : Option sockaddr
  dstaddr : Option sockaddr
deriving DecidableEq, Repr

/-- The structure `pcap_if_t`; the linked lists are lists. -/
structure pcap_if where
  name : String
  description : Option String
  addresses : List pcap_addr
  flags : Nat
deriving DecidableEq, Repr

/-- The condition of line 315, under which `FindAllDevs` reports an address
entry: the pointer `addr` is tested before the family is read. -/
def FindAllDevs.reports (K : Consts) (cur_addr : pcap_addr) : Bool :=
  match cur_addr.addr with
  | none => false
  | some sa => decide (sa.sa_family = K.AF_INET)

/-- The inner loop of `DefaultDevice` (lines 436-444): `some true` when an
entry with family `AF_INET` is met, `some false` when the list ends, `none`
when `addr->addr->sa_family` reads through a null `addr`. -/
def DefaultDevice.scan (K : Consts) : List pcap_addr → Option Bool
  | [] => some false
  | addr :: rest =>
    match addr.addr with
    | none => none
    | some sa => if sa.sa_family = K.AF_INET then some true else DefaultDevice.scan K rest

/-- The outer loop of `DefaultDevice` (lines 434-450).  When no device is
chosen the empty handle `ret` is returned (`none`). -/
def DefaultDevice.loop (K : Consts) : List pcap_if → Outcome (Option String)
  | [] => .returned none
  | dev :: rest =>
    if dev.addresses ≠ [] ∧ dev.flags &&& K.PCAP_IF_LOOPBACK = 0 then
      match DefaultDevice.scan K dev.addresses with
      | none => .undefinedBehavior
      | some true => .returned (some dev.name)
      | some false => DefaultDevice.loop K rest
    else DefaultDevice.loop K rest

/-- The function `DefaultDevice` (lines 418-454).  `rc` and `alldevs` are the
answer of `pcap_findalldevs`, `errbuf` the text it leaves on failure. -/
def DefaultDevice (K : Consts) (rc : Int) (alldevs : List pcap_if) (errbuf : String) :
    Outcome (Option String) :=
  if rc = -1 ∨ alldevs = [] then .threw (.Error errbuf)
  else DefaultDevice.loop K alldevs

/-- The two ways an open can end, told from the state before: it throws and the
vector is as before, or it returns `sessions.size()` and the vector has grown
by one session. -/
def OpenEnds (w : World) (r : OpenResult) : Prop :=
  ((∃ e, r.outcome = .threw e) ∧ r.world.sessions = w.sessions)
    ∨ (∃ d, r.outcome = .returned (toInt32 w.sessions.length)
        ∧ r.world.sessions = w.sessions ++ [d])

/-- The devices the default guess is about, in the words of the
specification: not flagged loopback, with at least one address entry of family
`AF_INET`. -/
def isCandidate (K : Consts) (dev : pcap_if) : Bool :=
  dev.flags &&& K.PCAP_IF_LOOPBACK == 0
    && dev.addresses.any (fun a => a.addr == some ⟨K.AF_INET⟩)

/-! ## Sequences of calls -/

/-- One call from JavaScript together with the answers libpcap gives during it. -/
inductive Call where
  | open_live (args : List JsValue) (env : OpenEnv)
  | open_offline (args : List JsValue) (env : OpenEnv)
  | dispatch (args : List JsValue) (source : Nat → PollResult)
  | close (args : List JsValue)
  | link_type (args : List JsValue) (pcap_datalink : Nat → Int)
  | fileno (args : List JsValue) (pcap_get_selectable_fd : Nat → Int)
  | stats (args : List JsValue) (pcap_stats : Nat → Int × pcap_stat)

/-- What one call of a sequence contributes: for an open that returned, the
size of the vector just before the call and the id returned; and the state for
the next call, `none` once the program has run into undefined behaviour. -/
structure StepResult where
  opened : Option (Nat × Int)
  next : Option World

/-- The state after an outcome: nothing is known after undefined behaviour. -/
def continueWith {α : Type} (o : Outcome α) (w : World) : Option World :=
  match o with
  | .undefinedBehavior => none
  | _ => some w

/-- The id an open returned, paired with the size of the vector before it. -/
def openedId (before : World) (r : OpenResult) : Option (Nat × Int) :=
  match r.outcome with
  | .returned id => some (before.sessions.length, id)
  | _ => none

/-- Runs one call in the state `w`. -/
def step (K : Consts) (w : World) : Call → StepResult
  | .open_live args env =>
    let r := OpenLive args env w
    ⟨openedId w r, continueWith r.outcome r.world⟩
  | .open_offline args env =>
    let r := OpenOffline args env w
    ⟨openedId w r, continueWith r.outcome r.world⟩
  | .dispatch args source =>
    let r := Dispatch args source w
    ⟨none, continueWith r.outcome r.world⟩
  | .close args =>
    let r := Close args w
    ⟨none, continueWith r.outcome r.world⟩
  | .link_type args pcap_datalink => ⟨none, continueWith (LinkType K args pcap_datalink w) w⟩
  | .fileno args fd => ⟨none, continueWith (Fileno args fd w) w⟩
  | .stats args pcap_stats => ⟨none, continueWith (Stats args pcap_stats w) w⟩

/-- The opens that returned during a sequence of calls started in `w`, in
order, each as (size of the vector before the call, id returned).  The run
ends at the first call with undefined behaviour. -/
def opens (K : Consts) : World → List Call → List (Nat × Int)
  | _, [] => []
  | w, c :: cs =>
    let r := step K w c
    match r.next with
    | none => r.opened.toList
    | some w1 => r.opened.toList ++ opens K w1 cs

/-! ## Sample inputs -/

/-- A world with one open session on the capture handle `7`. -/
def oneSession : World :=
  { sessions := [⟨0, 0, ⟨"", 1, 0⟩, 7, 0, 0, 0⟩], released := [], stderr := [] }

/-- Answers of a libpcap for which every step of an open succeeds; every
capture gets the handle `7`. -/
def sampleEnv : OpenEnv :=
  { stack := ⟨11, 12, ⟨"", 0, 0⟩, 0, 0, 0, 0⟩,
    pcap_lookupnet := fun _ => 0,
    lookupnet_net := 3232235776,
    lookupnet_mask := 4294967040,
    lookupnet_errbuf := "",
    pcap_create := fun _ => 7,
    create_errbuf := "",
    pcap_set_snaplen := fun _ _ => 0,
    pcap_set_promisc := fun _ _ => 0,
    pcap_set_buffer_size := fun _ _ => 0,
    pcap_set_timeout := fun _ _ => 0,
    pcap_activate := fun _ => 0,
    activate_geterr := "",
    pcap_open_offline := fun _ => 7,
    open_offline_errbuf := "",
    pcap_setnonblock := fun _ _ => 0,
    setnonblock_errbuf := "",
    pcap_compile := fun _ _ _ _ => 0,
    compile_geterr := "",
    pcap_setfilter := fun _ _ => 0,
    setfilter_geterr := "" }

/-- As `sampleEnv`, but the savefile cannot be opened. -/
def noSuchFile : OpenEnv :=
  { sampleEnv with pcap_open_offline := fun _ => 0,
                   open_offline_errbuf := "missing.pcap: No such file or directory" }

/-- As `sampleEnv`, but the network of the device cannot be looked up. -/
def noNetwork : OpenEnv :=
  { sampleEnv with pcap_lookupnet := fun _ => -1,
                   lookupnet_errbuf := "eth0: no IPv4 address assigned" }

/-- Well-formed arguments of an open. -/
def openArgs : List JsValue := [.string "eth0", .string "tcp", .number 1048576]

/-- A short session: two opens that return, a close between them, a failed
open, a dispatch and a query. -/
def sampleCalls : List Call :=
  [.open_offline openArgs sampleEnv,
   .close [.number 0],
   .open_offline openArgs noSuchFile,
   .open_live openArgs sampleEnv,
   .dispatch [.buffer ⟨64, [0, 0]⟩, .func 3, .number 1] (fun _ => .packets []),
   .link_type [.number 1] (fun _ => 1)]

/-- A device list as `pcap_findalldevs` builds it from `getifaddrs` entries: a
tunnel interface with one address entry that has no address, then an Ethernet
interface with an IPv4 address. -/
def tunnelFirst : List pcap_if :=
  [⟨"tun0", none, [⟨none, none, none, none⟩], 0⟩,
   ⟨"eth0", none, [⟨some ⟨2⟩, some ⟨2⟩, some ⟨2⟩, none⟩], 0⟩]

/-- A device list with the loopback interface, an interface without addresses
and an interface with an IPv6 address before the first one with an IPv4
address. -/
def ethernetLast : List pcap_if :=
  [⟨"lo", none, [⟨some ⟨2⟩, some ⟨2⟩, none, none⟩], 1⟩,
   ⟨"usb0", none, [], 0⟩,
   ⟨"wlan0", none, [⟨some ⟨10⟩, some ⟨10⟩, none, none⟩], 0⟩,
   ⟨"eth0", none, [⟨some ⟨10⟩, none, none, none⟩, ⟨some ⟨2⟩, some ⟨2⟩, some ⟨2⟩, none⟩], 0⟩,
   ⟨"eth1", none, [⟨some ⟨2⟩, some ⟨2⟩, some ⟨2⟩, none⟩], 0⟩]

/-! ## Lemmas -/

theorem memcpy_length (dst src : List Nat) (n : Nat) : (memcpy dst src n).length = dst.length := by
  induction n with
  | zero => rfl
  | succ n ih => simp [memcpy, ih]

theorem memcpy_eq_take_append_drop (dst src : List Nat) (n : Nat)
    (hd : n ≤ dst.length) (hs : n ≤ src.length) :
    memcpy dst src n = src.take n ++ dst.drop n := by
  induction n with
  | zero => simp [memcpy]
  | succ n ih =>
    have hd1 : n < dst.length := hd
    have hs1 : n < src.length := hs
    rw [memcpy, ih (Nat.le_of_lt hd1) (Nat.le_of_lt hs1)]
    apply List.ext_getElem
    · simp; omega
    · intro i h1 h2
      simp only [List.length_set, List.length_append, List.length_take, List.length_drop] at h1
      by_cases hin : i = n
      · subst hin
        simp [List.getElem_append, hs1, List.getD_eq_getElem]
      · rw [List.getElem_set_ne (Ne.symm hin)]
        by_cases hlt : i < n
        · simp [List.getElem_append, hlt, Nat.min_eq_left (Nat.le_of_lt hs1),
            Nat.min_eq_left hs, Nat.lt_succ_of_lt hlt]
        · have hgt : n < i := by omega
          simp only [List.getElem_append, List.length_take, Nat.min_eq_left (Nat.le_of_lt hs1),
            Nat.min_eq_left hs, hlt, List.getElem_drop]
          have : ¬ i < n + 1 := by omega
          simp only [this, dite_false]
          congr 1
          omega


theorem toInt32_of_range (x : Int) (h : -2147483648 ≤ x ∧ x < 2147483648) (h0 : 0 ≤ x) :
    toInt32 x = x := by
  unfold toInt32
  simp only
  split_ifs <;> omega

theorem toInt32_of_neg (x : Int) (h : -2147483648 ≤ x) (h0 : x < 0) : toInt32 x = x := by
  unfold toInt32
  simp only
  split_ifs <;> omega

theorem Int32Value_number (x : Int) (h : -2147483648 ≤ x ∧ x < 2147483648) :
    Int32Value (.number x) = x := by
  rcases lt_or_le x 0 with h0 | h0
  · exact toInt32_of_neg x h.1 h0
  · exact toInt32_of_range x h h0

theorem IsInt32_number (x : Int) (h : -2147483648 ≤ x ∧ x < 2147483648) :
    IsInt32 (.number x) = true := by
  simp [IsInt32, h]

/-! ## Packet delivery -/

theorem PacketReady_buffer (data : pcap_session_data) (pkthdr : pcap_pkthdr)
    (packet : List Nat) (st : Delivery)
    (hcap : data.buffer_length = st.buffer.length)
    (hpkt : pkthdr.caplen ≤ packet.length) :
    (PacketReady data pkthdr packet st).buffer
      = packet.take (min pkthdr.caplen st.buffer.length)
          ++ st.buffer.drop (min pkthdr.caplen st.buffer.length) := by
  simp only [PacketReady, hcap]
  by_cases hgt : pkthdr.caplen > st.buffer.length
  · rw [if_pos hgt, Nat.min_eq_right (Nat.le_of_lt hgt)]
    exact memcpy_eq_take_append_drop _ _ _ (Nat.le_refl _) (by omega)
  · rw [if_neg hgt, Nat.min_eq_left (by omega)]
    exact memcpy_eq_take_append_drop _ _ _ (by omega) hpkt

/-- C1: when `PacketReady` is given a packet of `caplen` captured bytes and the
session is bound to a caller buffer of capacity `cap`, the buffer afterwards is
the first `min caplen cap` bytes of the packet followed by its own old bytes
from that position on, the callback is called once more with a header whose
`caplen` and `len` are those of the packet, and for `cap < caplen` the buffer
holds exactly the first `cap` bytes of the packet. -/
theorem PacketReady_copies_min (data : pcap_session_data) (pkthdr : pcap_pkthdr)
    (packet : List Nat) (st : Delivery)
    (hcap : data.buffer_length = st.buffer.length)
    (hpkt : pkthdr.caplen ≤ packet.length) :
    (PacketReady data pkthdr packet st).buffer
        = packet.take (min pkthdr.caplen st.buffer.length)
            ++ st.buffer.drop (min pkthdr.caplen st.buffer.length)
      ∧ (PacketReady data pkthdr packet st).buffer.length = st.buffer.length
      ∧ (∃ hdr : PacketHeader,
          (PacketReady data pkthdr packet st).calls = st.calls ++ [(data.callback, hdr)]
            ∧ hdr.caplen = pkthdr.caplen ∧ hdr.len = pkthdr.len)
      ∧ (st.buffer.length < pkthdr.caplen →
          (PacketReady data pkthdr packet st).buffer = packet.take st.buffer.length) := by
  have hbuf := PacketReady_buffer data pkthdr packet st hcap hpkt
  refine ⟨hbuf, ?_, ?_, ?_⟩
  · simp [PacketReady, memcpy_length]
  · exact ⟨_, rfl, rfl, rfl⟩
  · intro hlt
    rw [hbuf, Nat.min_eq_right (Nat.le_of_lt hlt)]
    simp

/-- Witness for `PacketReady_copies_min`: a packet of four captured bytes and a
buffer of two. -/
theorem PacketReady_copies_min_witness :
    (PacketReady ⟨0, 0, ⟨"", 1, 0⟩, 1, 9, 64, 2⟩ ⟨5, 6, 4, 60⟩ [1, 2, 3, 4] ⟨[7, 7], []⟩).buffer
        = [1, 2]
      ∧ (PacketReady ⟨0, 0, ⟨"", 1, 0⟩, 1, 9, 64, 2⟩ ⟨5, 6, 4, 60⟩ [1, 2, 3, 4] ⟨[7, 7], []⟩).calls
        = [(9, ⟨5, 6, 4, 60⟩)] := by
  have h := PacketReady_copies_min ⟨0, 0, ⟨"", 1, 0⟩, 1, 9, 64, 2⟩ ⟨5, 6, 4, 60⟩ [1, 2, 3, 4]
    ⟨[7, 7], []⟩ rfl (by decide)
  exact ⟨h.2.2.2 (by decide), by decide⟩

/-! ## Dispatch -/

theorem Dispatch_valid (w : World) (b : Buffer) (f : Nat) (id : Int)
    (source : Nat → PollResult) (slot : pcap_session_data)
    (hid : -2147483648 ≤ id ∧ id < 2147483648)
    (hslot : lookup w.sessions id = some slot)
    (hopen : slot.pcap_handle ∉ w.released) :
    Dispatch [.buffer b, .func f, .number id] source w
      = ⟨.returned (toUint32 (pcap_dispatch source slot.pcap_handle 1
            (PacketReady (Dispatch.bind slot b f)) ⟨b.bytes, []⟩).1),
         { w with sessions := w.sessions.set id.toNat (Dispatch.bind slot b f) },
         (pcap_dispatch source slot.pcap_handle 1
            (PacketReady (Dispatch.bind slot b f)) ⟨b.bytes, []⟩).2⟩ := by
  have hh : (Dispatch.bind slot b f).pcap_handle = slot.pcap_handle := rfl
  simp [Dispatch, arg, HasInstance, IsFunction, IsInt32_number id hid,
    Int32Value_number id hid, hslot, ToBuffer, CastFunction, hopen, hh]

/-- C3: a dispatch with a buffer, a function and the id of a registered, open
session, whose poll has no packet to hand over, returns 0, calls no callback
and leaves the buffer as it was. -/
theorem Dispatch_no_packet (w : World) (b : Buffer) (f : Nat) (id : Int)
    (source : Nat → PollResult) (slot : pcap_session_data)
    (hid : -2147483648 ≤ id ∧ id < 2147483648)
    (hslot : lookup w.sessions id = some slot)
    (hopen : slot.pcap_handle ∉ w.released)
    (hpoll : source slot.pcap_handle = .packets []) :
    (Dispatch [.buffer b, .func f, .number id] source w).outcome = .returned 0
      ∧ (Dispatch [.buffer b, .func f, .number id] source w).delivery.calls = []
      ∧ (Dispatch [.buffer b, .func f, .number id] source w).delivery.buffer = b.bytes := by
  rw [Dispatch_valid w b f id source slot hid hslot hopen]
  simp [pcap_dispatch, hpoll, toUint32]

/-- Witness for `Dispatch_no_packet`: session 0 of `oneSession`, nothing to read. -/
theorem Dispatch_no_packet_witness :
    (Dispatch [.buffer ⟨64, [0, 0]⟩, .func 3, .number 0] (fun _ => .packets []) oneSession).outcome
        = .returned 0
      ∧ (Dispatch [.buffer ⟨64, [0, 0]⟩, .func 3, .number 0] (fun _ => .packets [])
          oneSession).delivery.calls = [] :=
  have h := Dispatch_no_packet oneSession ⟨64, [0, 0]⟩ 3 0 (fun _ => .packets [])
    ⟨0, 0, ⟨"", 1, 0⟩, 7, 0, 0, 0⟩ (by decide) (by decide) (by decide) rfl
  ⟨h.1, h.2.1⟩

/-- C7: on session 0 of `oneSession`, a dispatch with valid arguments whose
poll fails with `-1` throws nothing: it returns 4294967295, the code `-1` read
as an unsigned packet count.  No callback is called. -/
theorem Dispatch_poll_failure_returns_count :
    (Dispatch [.buffer ⟨64, [0, 0]⟩, .func 3, .number 0] (fun _ => .failed (-1))
        oneSession).outcome = .returned 4294967295
      ∧ (Dispatch [.buffer ⟨64, [0, 0]⟩, .func 3, .number 0] (fun _ => .failed (-1))
        oneSession).delivery.calls = [] := by
  constructor <;> decide

/-- Every failed poll on a registered, open session ends the same way: the
negative code comes back as `code + 2^32` and no callback is called. -/
theorem Dispatch_poll_failure (w : World) (b : Buffer) (f : Nat) (id : Int)
    (source : Nat → PollResult) (slot : pcap_session_data) (rc : Int)
    (hid : -2147483648 ≤ id ∧ id < 2147483648)
    (hslot : lookup w.sessions id = some slot)
    (hopen : slot.pcap_handle ∉ w.released)
    (hpoll : source slot.pcap_handle = .failed rc)
    (hrc : -2147483648 ≤ rc ∧ rc < 0) :
    (Dispatch [.buffer b, .func f, .number id] source w).outcome
        = .returned (rc + 4294967296).toNat
      ∧ (Dispatch [.buffer b, .func f, .number id] source w).delivery.calls = [] := by
  rw [Dispatch_valid w b f id source slot hid hslot hopen]
  simp only [pcap_dispatch, hpoll, toUint32, and_true]
  congr 2
  omega

/-- With one packet on offer, a dispatch on a registered, open session returns 1,
calls the callback once with the lengths of the packet, and the caller's buffer
receives the first `min caplen capacity` bytes. -/
theorem Dispatch_one_packet (w : World) (b : Buffer) (f : Nat) (id : Int)
    (source : Nat → PollResult) (slot : pcap_session_data)
    (pkthdr : pcap_pkthdr) (packet : List Nat) (more : List (pcap_pkthdr × List Nat))
    (hid : -2147483648 ≤ id ∧ id < 2147483648)
    (hslot : lookup w.sessions id = some slot)
    (hopen : slot.pcap_handle ∉ w.released)
    (hpoll : source slot.pcap_handle = .packets ((pkthdr, packet) :: more))
    (hpkt : pkthdr.caplen ≤ packet.length) :
    (Dispatch [.buffer b, .func f, .number id] source w).outcome = .returned 1
      ∧ (Dispatch [.buffer b, .func f, .number id] source w).delivery.calls
          = [(f, ⟨toUint32 pkthdr.tv_sec, toUint32 pkthdr.tv_usec, pkthdr.caplen, pkthdr.len⟩)]
      ∧ (Dispatch [.buffer b, .func f, .number id] source w).delivery.buffer
          = packet.take (min pkthdr.caplen b.bytes.length)
              ++ b.bytes.drop (min pkthdr.caplen b.bytes.length) := by
  rw [Dispatch_valid w b f id source slot hid hslot hopen]
  have h := PacketReady_buffer (Dispatch.bind slot b f) pkthdr packet ⟨b.bytes, []⟩ rfl hpkt
  refine ⟨?_, ?_, ?_⟩
  · simp [pcap_dispatch, hpoll, toUint32]
  · simp [pcap_dispatch, hpoll, PacketReady, Dispatch.bind]
  · simpa [pcap_dispatch, hpoll] using h

/-! ## Session ids that name no slot, and closed sessions -/

theorem not_threw_of_undefined {α : Type} {o : Outcome α} (h : o = .undefinedBehavior) :
    ¬ ∃ e, o = .threw e := by
  rintro ⟨e, he⟩
  rw [h] at he
  cases he

theorem lookup_out_of_range (sessions : List pcap_session_data) (id : Int)
    (hout : id < 0 ∨ (sessions.length : Int) ≤ id) : lookup sessions id = none := by
  unfold lookup
  rw [if_neg]
  omega

/-- C4, as stated, fails: in a world with one session the id 1 names no slot,
and none of `Dispatch`, `LinkType`, `Close`, `Fileno`, `Stats` throws for it. -/
theorem out_of_range_id_reports_no_error :
    (¬ ∃ e, (Dispatch [.buffer ⟨64, [0, 0]⟩, .func 3, .number 1] (fun _ => .packets [])
        oneSession).outcome = .threw e)
      ∧ (¬ ∃ e, LinkType Consts.linux [.number 1] (fun _ => 1) oneSession = .threw e)
      ∧ (¬ ∃ e, (Close [.number 1] oneSession).outcome = .threw e)
      ∧ (¬ ∃ e, Fileno [.number 1] (fun _ => 5) oneSession = .threw e)
      ∧ (¬ ∃ e, Stats [.number 1] (fun _ => (0, ⟨0, 0, 0⟩)) oneSession = .threw e) := by
  refine ⟨?_, ?_, ?_, ?_, ?_⟩ <;> exact not_threw_of_undefined (by decide)

/-- C4, amended: for an id in the `int32` range that is negative or not below
the number of sessions, `Dispatch`, `LinkType`, `Close`, `Fileno` and `Stats`
pass their argument checks and index the vector without a bounds check: no
exception is thrown, the behaviour is undefined. -/
theorem out_of_range_id_unchecked (K : Consts) (w : World) (id : Int) (b : Buffer) (f : Nat)
    (source : Nat → PollResult) (pcap_datalink fd : Nat → Int)
    (pcap_stats : Nat → Int × pcap_stat)
    (hid : -2147483648 ≤ id ∧ id < 2147483648)
    (hout : id < 0 ∨ (w.sessions.length : Int) ≤ id) :
    (Dispatch [.buffer b, .func f, .number id] source w).outcome = .undefinedBehavior
      ∧ LinkType K [.number id] pcap_datalink w = .undefinedBehavior
      ∧ (Close [.number id] w).outcome = .undefinedBehavior
      ∧ Fileno [.number id] fd w = .undefinedBehavior
      ∧ Stats [.number id] pcap_stats w = .undefinedBehavior := by
  have hl := lookup_out_of_range w.sessions id hout
  refine ⟨?_, ?_, ?_, ?_, ?_⟩ <;>
    simp [Dispatch, LinkType, Close, Fileno, Stats, arg, HasInstance, IsFunction,
      IsInt32_number id hid, Int32Value_number id hid, hl]

/-- Witness for `out_of_range_id_unchecked`: the id `-1` in `oneSession`. -/
theorem out_of_range_id_unchecked_witness :
    (Dispatch [.buffer ⟨64, [0, 0]⟩, .func 3, .number (-1)] (fun _ => .packets [])
        oneSession).outcome = .undefinedBehavior
      ∧ (Close [.number (-1)] oneSession).outcome = .undefinedBehavior :=
  have h := out_of_range_id_unchecked Consts.linux oneSession (-1) ⟨64, [0, 0]⟩ 3
    (fun _ => .packets []) (fun _ => 1) (fun _ => 5) (fun _ => (0, ⟨0, 0, 0⟩))
    (by decide) (by decide)
  ⟨h.1, h.2.2.1⟩

/-- C5, as stated, fails: after `Close` of session 0 of `oneSession`, a
`Dispatch` on session 0 throws nothing. -/
theorem Dispatch_after_Close_reports_no_error :
    ¬ ∃ e, (Dispatch [.buffer ⟨64, [0, 0]⟩, .func 3, .number 0] (fun _ => .packets [])
        (Close [.number 0] oneSession).world).outcome = .threw e := by
  exact not_threw_of_undefined (by decide)

/-- C5, amended: `Close` on a registered, open session returns, leaves the
vector as it was (nothing marks the slot closed) and only hands the capture
handle to `pcap_close`; a following `Dispatch` with valid arguments on the same
id passes every check, throws nothing, and polls the released handle, which is
undefined behaviour. -/
theorem Dispatch_after_Close (w : World) (id : Int) (slot : pcap_session_data)
    (b : Buffer) (f : Nat) (source : Nat → PollResult)
    (hid : -2147483648 ≤ id ∧ id < 2147483648)
    (hslot : lookup w.sessions id = some slot)
    (hopen : slot.pcap_handle ∉ w.released) :
    (Close [.number id] w).outcome = .returned ()
      ∧ (Close [.number id] w).world.sessions = w.sessions
      ∧ (Close [.number id] w).world.released = slot.pcap_handle :: w.released
      ∧ (Dispatch [.buffer b, .func f, .number id] source (Close [.number id] w).world).outcome
          = .undefinedBehavior := by
  have hc : Close [.number id] w
      = ⟨.returned (), { w with released := slot.pcap_handle :: w.released }⟩ := by
    simp [Close, arg, IsInt32_number id hid, Int32Value_number id hid, hslot, hopen]
  have hh : (Dispatch.bind slot b f).pcap_handle = slot.pcap_handle := rfl
  rw [hc]
  refine ⟨rfl, rfl, rfl, ?_⟩
  simp [Dispatch, arg, HasInstance, IsFunction, IsInt32_number id hid,
    Int32Value_number id hid, hslot, ToBuffer, CastFunction, hh]

/-- Witness for `Dispatch_after_Close`: session 0 of `oneSession`. -/
theorem Dispatch_after_Close_witness :
    (Close [.number 0] oneSession).world.sessions = oneSession.sessions
      ∧ (Dispatch [.buffer ⟨64, [0, 0]⟩, .func 3, .number 0] (fun _ => .packets [])
          (Close [.number 0] oneSession).world).outcome = .undefinedBehavior :=
  have h := Dispatch_after_Close oneSession 0 ⟨0, 0, ⟨"", 1, 0⟩, 7, 0, 0, 0⟩ ⟨64, [0, 0]⟩ 3
    (fun _ => .packets []) (by decide) (by decide) (by decide)
  ⟨h.2.1, h.2.2.2⟩

/-! ## Opening sessions -/

theorem Open.tail_cases (filter : String) (env : OpenEnv) (data : pcap_session_data)
    (w0 w : World) (hw : w.sessions = w0.sessions) :
    OpenEnds w0 (Open.tail filter env data w) := by
  by_cases h1 : env.pcap_setnonblock data.pcap_handle 1 = -1
  · exact Or.inl (by simp [Open.tail, h1, hw])
  by_cases h2 : env.pcap_compile data.pcap_handle filter 1 data.net = -1
  · exact Or.inl (by simp [Open.tail, h1, h2, hw])
  by_cases h3 : env.pcap_setfilter data.pcap_handle ⟨filter, 1, data.net⟩ = -1
  · exact Or.inl (by simp [Open.tail, h1, h2, h3, hw])
  · exact Or.inr ⟨{ data with fp := ⟨filter, 1, data.net⟩ },
      by simp [Open.tail, h1, h2, h3, hw], by simp [Open.tail, h1, h2, h3, hw]⟩

theorem Open.lookupnet_sessions (device : String) (env : OpenEnv) (w : World) :
    (Open.lookupnet device env w).2.sessions = w.sessions := by
  unfold Open.lookupnet
  split_ifs <;> rfl

theorem Open.live_cases (device filter : String) (buffer_size : Int) (env : OpenEnv) (w : World) :
    OpenEnds w (Open.live device filter buffer_size env w) := by
  have hl := Open.lookupnet_sessions device env w
  by_cases c1 : env.pcap_create device = 0
  · exact Or.inl (by simp [Open.live, c1, hl])
  by_cases c2 : env.pcap_set_snaplen (env.pcap_create device) 65535 = 0
  swap
  · exact Or.inl (by simp [Open.live, c1, c2, hl, acquire])
  by_cases c3 : env.pcap_set_promisc (env.pcap_create device) 1 = 0
  swap
  · exact Or.inl (by simp [Open.live, c1, c2, c3, hl, acquire])
  by_cases c4 : env.pcap_set_buffer_size (env.pcap_create device) buffer_size = 0
  swap
  · exact Or.inl (by simp [Open.live, c1, c2, c3, c4, hl, acquire])
  by_cases c5 : env.pcap_set_timeout (env.pcap_create device) 1000 = 0
  swap
  · exact Or.inl (by simp [Open.live, c1, c2, c3, c4, c5, hl, acquire])
  by_cases c6 : env.pcap_activate (env.pcap_create device) = 0
  swap
  · exact Or.inl (by simp [Open.live, c1, c2, c3, c4, c5, c6, hl, acquire])
  have h : Open.live device filter buffer_size env w
      = Open.tail filter env
          { (Open.lookupnet device env w).1 with pcap_handle := env.pcap_create device }
          (acquire (Open.lookupnet device env w).2 (env.pcap_create device)) := by
    simp [Open.live, c1, c2, c3, c4, c5, c6]
  rw [h]
  exact Open.tail_cases _ _ _ _ _ (by simp [acquire, hl])

theorem Open.offline_cases (device filter : String) (env : OpenEnv) (w : World) :
    OpenEnds w (Open.offline device filter env w) := by
  by_cases c1 : env.pcap_open_offline device = 0
  · exact Or.inl (by simp [Open.offline, c1])
  have h : Open.offline device filter env w
      = Open.tail filter env { env.stack with pcap_handle := env.pcap_open_offline device }
          (acquire w (env.pcap_open_offline device)) := by
    simp [Open.offline, c1]
  rw [h]
  exact Open.tail_cases _ _ _ _ _ (by simp [acquire])

theorem Open_cases (live : Bool) (args : List JsValue) (env : OpenEnv) (w : World) :
    OpenEnds w (Open live args env w) := by
  unfold Open
  split_ifs with h0 h1 h2 h3 hl
  · exact Or.inl ⟨⟨_, rfl⟩, rfl⟩
  · exact Or.inl ⟨⟨_, rfl⟩, rfl⟩
  · exact Or.inl ⟨⟨_, rfl⟩, rfl⟩
  · exact Open.live_cases _ _ _ _ _
  · exact Open.offline_cases _ _ _ _
  · exact Or.inl ⟨⟨_, rfl⟩, rfl⟩

theorem Open.tail_outcome_congr (filter : String) (env : OpenEnv) (data : pcap_session_data)
    (w1 w2 : World) (h : w1.sessions.length = w2.sessions.length) :
    (Open.tail filter env data w1).outcome = (Open.tail filter env data w2).outcome := by
  by_cases h1 : env.pcap_setnonblock data.pcap_handle 1 = -1
  · simp [Open.tail, h1]
  by_cases h2 : env.pcap_compile data.pcap_handle filter 1 data.net = -1
  · simp [Open.tail, h1, h2]
  by_cases h3 : env.pcap_setfilter data.pcap_handle ⟨filter, 1, data.net⟩ = -1
  · simp [Open.tail, h1, h2, h3]
  · simp [Open.tail, h1, h2, h3, h]

theorem Open.lookupnet_data (device : String) (env : OpenEnv) (w1 w2 : World) :
    (Open.lookupnet device env w1).1 = (Open.lookupnet device env w2).1 := by
  unfold Open.lookupnet
  split_ifs <;> rfl

theorem Open.live_outcome_congr (device filter : String) (buffer_size : Int) (env : OpenEnv)
    (w1 w2 : World) (h : w1.sessions.length = w2.sessions.length) :
    (Open.live device filter buffer_size env w1).outcome
      = (Open.live device filter buffer_size env w2).outcome := by
  by_cases c1 : env.pcap_create device = 0
  · simp [Open.live, c1]
  by_cases c2 : env.pcap_set_snaplen (env.pcap_create device) 65535 = 0
  swap
  · simp [Open.live, c1, c2]
  by_cases c3 : env.pcap_set_promisc (env.pcap_create device) 1 = 0
  swap
  · simp [Open.live, c1, c2, c3]
  by_cases c4 : env.pcap_set_buffer_size (env.pcap_create device) buffer_size = 0
  swap
  · simp [Open.live, c1, c2, c3, c4]
  by_cases c5 : env.pcap_set_timeout (env.pcap_create device) 1000 = 0
  swap
  · simp [Open.live, c1, c2, c3, c4, c5]
  by_cases c6 : env.pcap_activate (env.pcap_create device) = 0
  swap
  · simp [Open.live, c1, c2, c3, c4, c5, c6]
  have e : ∀ w : World, Open.live device filter buffer_size env w
      = Open.tail filter env
          { (Open.lookupnet device env w).1 with pcap_handle := env.pcap_create device }
          (acquire (Open.lookupnet device env w).2 (env.pcap_create device)) := by
    intro w
    simp [Open.live, c1, c2, c3, c4, c5, c6]
  rw [e w1, e w2, Open.lookupnet_data device env w1 w2]
  exact Open.tail_outcome_congr _ _ _ _ _
    (by simp [acquire, Open.lookupnet_sessions, h])

theorem Open.offline_outcome_congr (device filter : String) (env : OpenEnv)
    (w1 w2 : World) (h : w1.sessions.length = w2.sessions.length) :
    (Open.offline device filter env w1).outcome = (Open.offline device filter env w2).outcome := by
  by_cases c1 : env.pcap_open_offline device = 0
  · simp [Open.offline, c1]
  have e : ∀ w : World, Open.offline device filter env w
      = Open.tail filter env { env.stack with pcap_handle := env.pcap_open_offline device }
          (acquire w (env.pcap_open_offline device)) := by
    intro w
    simp [Open.offline, c1]
  rw [e w1, e w2]
  exact Open.tail_outcome_congr _ _ _ _ _ (by simp [acquire, h])

theorem Open_outcome_congr (live : Bool) (args : List JsValue) (env : OpenEnv)
    (w1 w2 : World) (h : w1.sessions.length = w2.sessions.length) :
    (Open live args env w1).outcome = (Open live args env w2).outcome := by
  unfold Open
  split_ifs
  · rfl
  · rfl
  · rfl
  · exact Open.live_outcome_congr _ _ _ _ _ _ h
  · exact Open.offline_outcome_congr _ _ _ _ _ h
  · rfl

/-- C6: an open, live or offline, that throws at any step leaves the vector
`sessions` exactly as it was, and every following open ends as it would have
ended without the failed call; in particular it returns the same id. -/
theorem Open_failure_keeps_registry (live : Bool) (args : List JsValue) (env : OpenEnv)
    (w : World) (hfail : ∃ e, (Open live args env w).outcome = .threw e) :
    (Open live args env w).world.sessions = w.sessions
      ∧ ∀ (live2 : Bool) (args2 : List JsValue) (env2 : OpenEnv),
          (Open live2 args2 env2 (Open live args env w).world).outcome
            = (Open live2 args2 env2 w).outcome := by
  have hs : (Open live args env w).world.sessions = w.sessions := by
    rcases Open_cases live args env w with ⟨_, hw⟩ | ⟨d, ho, _⟩
    · exact hw
    · obtain ⟨e, he⟩ := hfail
      rw [ho] at he
      cases he
  exact ⟨hs, fun live2 args2 env2 => Open_outcome_congr live2 args2 env2 _ _ (by rw [hs])⟩

/-- Witness for `Open_failure_keeps_registry`: the savefile does not exist; the
vector keeps its one session and the next open gets the id 1. -/
theorem Open_failure_keeps_registry_witness :
    (Open false openArgs noSuchFile oneSession).outcome
        = .threw (.Error "missing.pcap: No such file or directory")
      ∧ (Open false openArgs noSuchFile oneSession).world.sessions = oneSession.sessions
      ∧ (Open false openArgs sampleEnv (Open false openArgs noSuchFile oneSession).world).outcome
          = .returned 1 :=
  have h := Open_failure_keeps_registry false openArgs noSuchFile oneSession ⟨_, rfl⟩
  ⟨rfl, h.1, (h.2 false openArgs sampleEnv).trans rfl⟩

/-- C8: a live open with well-formed arguments in which `pcap_lookupnet` fails
and every later libpcap call succeeds (the filter being compiled with netmask
argument 0) returns the id `sessions.size()` and appends one session whose
`net` and `mask` are 0 and whose filter program was compiled against 0. -/
theorem OpenLive_lookupnet_failure (device filter : String) (buffer_size : Int)
    (env : OpenEnv) (w : World)
    (hsize : -2147483648 ≤ buffer_size ∧ buffer_size < 2147483648)
    (hnet : env.pcap_lookupnet device = -1)
    (hcreate : env.pcap_create device ≠ 0)
    (hsnap : env.pcap_set_snaplen (env.pcap_create device) 65535 = 0)
    (hpromisc : env.pcap_set_promisc (env.pcap_create device) 1 = 0)
    (hbuf : env.pcap_set_buffer_size (env.pcap_create device) buffer_size = 0)
    (htimeout : env.pcap_set_timeout (env.pcap_create device) 1000 = 0)
    (hactivate : env.pcap_activate (env.pcap_create device) = 0)
    (hnonblock : env.pcap_setnonblock (env.pcap_create device) 1 ≠ -1)
    (hcompile : env.pcap_compile (env.pcap_create device) filter 1 0 ≠ -1)
    (hsetfilter : env.pcap_setfilter (env.pcap_create device) ⟨filter, 1, 0⟩ ≠ -1) :
    ∃ d : pcap_session_data,
      (OpenLive [.string device, .string filter, .number buffer_size] env w).outcome
          = .returned (toInt32 w.sessions.length)
        ∧ (OpenLive [.string device, .string filter, .number buffer_size] env w).world.sessions
          = w.sessions ++ [d]
        ∧ d.net = 0 ∧ d.mask = 0 ∧ d.fp = ⟨filter, 1, 0⟩
        ∧ d.pcap_handle = env.pcap_create device := by
  refine ⟨{ env.stack with net := 0, mask := 0, pcap_handle := env.pcap_create device,
                           fp := ⟨filter, 1, 0⟩ }, ?_, ?_, rfl, rfl, rfl, rfl⟩ <;>
    simp [OpenLive, Open, Open.live, Open.lookupnet, Open.tail, arg, IsString,
      IsInt32_number buffer_size hsize, Int32Value_number buffer_size hsize, Utf8Value, hnet,
      hcreate, hsnap, hpromisc, hbuf, htimeout, hactivate, hnonblock, hcompile, hsetfilter,
      acquire]

/-- Witness for `OpenLive_lookupnet_failure`: the lookup fails on `eth0`. -/
theorem OpenLive_lookupnet_failure_witness :
    ∃ d : pcap_session_data,
      (OpenLive openArgs noNetwork oneSession).outcome = .returned 1
        ∧ (OpenLive openArgs noNetwork oneSession).world.sessions = oneSession.sessions ++ [d]
        ∧ d.net = 0 ∧ d.mask = 0 ∧ d.fp = ⟨"tcp", 1, 0⟩ := by
  obtain ⟨d, h1, h2, h3, h4, h5, _⟩ := OpenLive_lookupnet_failure "eth0" "tcp" 1048576 noNetwork
    oneSession (by decide) rfl (by decide) rfl rfl rfl rfl rfl (by decide) (by decide) (by decide)
  exact ⟨d, h1.trans (by decide), h2, h3, h4, h5⟩

/-! ## Session ids over a sequence of calls -/

theorem Dispatch_sessions_length (args : List JsValue) (source : Nat → PollResult) (w : World) :
    (Dispatch args source w).world.sessions.length = w.sessions.length := by
  unfold Dispatch
  simp only
  split_ifs
  · rfl
  · rfl
  · rfl
  · rfl
  · split
    · rfl
    · split_ifs <;> simp

theorem Close_sessions (args : List JsValue) (w : World) :
    (Close args w).world.sessions = w.sessions := by
  unfold Close
  simp only
  split_ifs
  · rfl
  · split
    · rfl
    · split_ifs <;> rfl
  · rfl

theorem continueWith_some {α : Type} (o : Outcome α) (w w1 : World)
    (h : continueWith o w = some w1) : w1 = w := by
  cases o <;> simp [continueWith] at h <;> exact h.symm

theorem step_open_cases (w : World) (r : OpenResult) (h : OpenEnds w r) :
    (openedId w r = none
        ∧ ∀ w1, continueWith r.outcome r.world = some w1 → w1.sessions.length = w.sessions.length)
      ∨ (openedId w r = some (w.sessions.length, toInt32 w.sessions.length)
        ∧ ∃ w1, continueWith r.outcome r.world = some w1
            ∧ w1.sessions.length = w.sessions.length + 1) := by
  rcases h with ⟨⟨e, he⟩, hw⟩ | ⟨d, ho, hw⟩
  · left
    refine ⟨by simp [openedId, he], ?_⟩
    intro w1 h1
    rw [continueWith_some _ _ _ h1, hw]
  · right
    exact ⟨by simp [openedId, ho], r.world, by simp [continueWith, ho], by simp [hw]⟩

theorem step_cases (K : Consts) (w : World) (c : Call) :
    ((step K w c).opened = none
        ∧ ∀ w1, (step K w c).next = some w1 → w1.sessions.length = w.sessions.length)
      ∨ ((step K w c).opened = some (w.sessions.length, toInt32 w.sessions.length)
        ∧ ∃ w1, (step K w c).next = some w1 ∧ w1.sessions.length = w.sessions.length + 1) := by
  cases c with
  | open_live args env => exact step_open_cases w _ (Open_cases true args env w)
  | open_offline args env => exact step_open_cases w _ (Open_cases false args env w)
  | dispatch args source =>
    left
    refine ⟨rfl, ?_⟩
    intro w1 h1
    rw [continueWith_some _ _ _ h1, Dispatch_sessions_length]
  | close args =>
    left
    refine ⟨rfl, ?_⟩
    intro w1 h1
    rw [continueWith_some _ _ _ h1, Close_sessions]
  | link_type args dl =>
    left
    refine ⟨rfl, ?_⟩
    intro w1 h1
    rw [continueWith_some _ _ _ h1]
  | fileno args fd =>
    left
    refine ⟨rfl, ?_⟩
    intro w1 h1
    rw [continueWith_some _ _ _ h1]
  | stats args st =>
    left
    refine ⟨rfl, ?_⟩
    intro w1 h1
    rw [continueWith_some _ _ _ h1]

theorem opens_getElem? (K : Consts) (cs : List Call) :
    ∀ (w : World) (k : Nat) (p : Nat × Int), (opens K w cs)[k]? = some p →
      p = (w.sessions.length + k, toInt32 ((w.sessions.length + k : Nat) : Int)) := by
  induction cs with
  | nil => intro w k p h; simp [opens] at h
  | cons c cs ih =>
    intro w k p h
    rcases step_cases K w c with ⟨ho, hn⟩ | ⟨ho, w1, hn, hl⟩
    · cases hnext : (step K w c).next with
      | none => simp [opens, hnext, ho] at h
      | some w1 =>
        simp only [opens, hnext, ho, Option.toList, List.nil_append] at h
        have := ih w1 k p h
        rw [hn w1 hnext] at this
        exact this
    · simp only [opens, hn, ho, Option.toList, List.singleton_append] at h
      cases k with
      | zero =>
        simp only [List.getElem?_cons_zero, Option.some.injEq] at h
        rw [← h]
        rfl
      | succ k =>
        simp only [List.getElem?_cons_succ] at h
        have := ih w1 k p h
        rw [hl] at this
        rw [this, show w.sessions.length + 1 + k = w.sessions.length + (k + 1) by omega]

theorem step_open_offline_sample (K : Consts) (w : World) :
    ∃ w1, step K w (.open_offline openArgs sampleEnv)
        = ⟨some (w.sessions.length, toInt32 w.sessions.length), some w1⟩
      ∧ w1.sessions.length = w.sessions.length + 1 := by
  refine ⟨(OpenOffline openArgs sampleEnv w).world, ?_, ?_⟩ <;>
    simp [step, OpenOffline, Open, Open.offline, Open.tail, openArgs, sampleEnv, arg, IsString,
      IsInt32, openedId, continueWith, acquire]

theorem opens_replicate_length (K : Consts) (n : Nat) :
    ∀ w : World, (opens K w (List.replicate n (.open_offline openArgs sampleEnv))).length = n := by
  induction n with
  | zero => intro w; rfl
  | succ n ih =>
    intro w
    obtain ⟨w1, hs, _⟩ := step_open_offline_sample K w
    rw [List.replicate_succ, opens, hs]
    simp only [Option.toList, List.singleton_append, List.length_cons, ih w1]

/-- C2, as stated, fails: in a run of 2147483649 offline opens that all
return, started with no session, the last one finds 2147483648 sessions in the
vector and returns the id -2147483648. -/
theorem opens_wrap_around :
    (opens Consts.linux World.empty
        (List.replicate 2147483649 (.open_offline openArgs sampleEnv)))[2147483648]?
      = some (2147483648, -2147483648) := by
  have hlen := opens_replicate_length Consts.linux 2147483649 World.empty
  have hlt : 2147483648 < (opens Consts.linux World.empty
      (List.replicate 2147483649 (.open_offline openArgs sampleEnv))).length := by
    rw [hlen]
    exact Nat.lt_succ_self 2147483648
  rw [List.getElem?_eq_getElem hlt]
  have h := opens_getElem? Consts.linux _ World.empty 2147483648 _ (List.getElem?_eq_getElem hlt)
  rw [h]
  rfl

/-- C2, amended: in every sequence of open, close, dispatch, link-type, fileno
and stats calls started with no session and followed up to its first call with
undefined behaviour, as long as no more than 2147483648 opens have returned,
the opens that returned got the ids 0, 1, 2, ... in this order, each id being
the size of the vector just before the call, and no id was returned twice. -/
theorem opens_dense (K : Consts) (cs : List Call)
    (hbound : (opens K World.empty cs).length ≤ 2147483648) :
    (∀ (k : Nat) (p : Nat × Int), (opens K World.empty cs)[k]? = some p → p = (k, (k : Int)))
      ∧ ((opens K World.empty cs).map Prod.snd).Nodup := by
  have hget : ∀ (k : Nat) (p : Nat × Int),
      (opens K World.empty cs)[k]? = some p → p = (k, (k : Int)) := by
    intro k p h
    have hk : k < (opens K World.empty cs).length := by
      by_contra hge
      rw [List.getElem?_eq_none (by omega)] at h
      cases h
    have := opens_getElem? K cs World.empty k p h
    simp only [World.empty, List.length_nil, Nat.zero_add] at this
    rw [this, toInt32_of_range (k : Int) (by omega) (by omega)]
  refine ⟨hget, ?_⟩
  have hmap : (opens K World.empty cs).map Prod.snd
      = (List.range (opens K World.empty cs).length).map (fun i : Nat => (i : Int)) := by
    apply List.ext_getElem?
    intro i
    by_cases hi : i < (opens K World.empty cs).length
    · have h1 := hget i _ (List.getElem?_eq_getElem hi)
      simp [List.getElem?_map, List.getElem?_eq_getElem hi, List.getElem?_range hi, h1]
    · have h2 : (opens K World.empty cs).length ≤ i := by omega
      rw [List.getElem?_map, List.getElem?_map, List.getElem?_eq_none h2,
        List.getElem?_eq_none (by simpa using h2)]
      rfl
  rw [hmap]
  exact (List.nodup_range _).map (fun a b h => by simpa using h)

/-- Witness for `opens_dense`: in `sampleCalls` the two opens that return get
the ids 0 and 1, the close and the failed open in between notwithstanding. -/
theorem opens_dense_witness :
    opens Consts.linux World.empty sampleCalls = [(0, 0), (1, 1)]
      ∧ ((opens Consts.linux World.empty sampleCalls).map Prod.snd).Nodup :=
  have hval : opens Consts.linux World.empty sampleCalls = [(0, 0), (1, 1)] := by rfl
  ⟨hval, (opens_dense Consts.linux sampleCalls (by rw [hval]; decide)).2⟩

/-! ## Link types -/

theorem fmt_d_length (n : Int) (h : -2147483648 ≤ n ∧ n < 2147483648) :
    (fmt_d n).length ≤ 11 := by
  unfold fmt_d
  split_ifs with hneg
  · have h1 : (Nat.repr (-n).toNat).length ≤ 10 :=
      Nat.repr_length _ 10 (by decide) (by omega)
    rw [String.length_append]
    have h2 : ("-" : String).length = 1 := rfl
    omega
  · have h1 : (Nat.repr n.toNat).length ≤ 10 :=
      Nat.repr_length _ 10 (by decide) (by omega)
    omega

theorem fmt_d_eq_toString (n : Int) : fmt_d n = toString n := by
  cases n with
  | ofNat m =>
    have h : ¬ (Int.ofNat m < 0) := by simp
    rw [fmt_d, if_neg h]
    rfl
  | negSucc m =>
    have h : Int.negSucc m < 0 := Int.negSucc_lt_zero m
    rw [fmt_d, if_pos h]
    rfl

theorem snprintf_fits (size : Nat) (text : String) (h : text.length ≤ size - 1) :
    snprintf size text = text := by
  unfold snprintf
  have h1 : text.data.length ≤ size - 1 := h
  rw [List.take_of_length_le h1]

theorem LinkType_valid (K : Consts) (w : World) (id : Int) (slot : pcap_session_data)
    (pcap_datalink : Nat → Int)
    (hid : -2147483648 ≤ id ∧ id < 2147483648)
    (hslot : lookup w.sessions id = some slot)
    (hopen : slot.pcap_handle ∉ w.released) :
    LinkType K [.number id] pcap_datalink w
      = if pcap_datalink slot.pcap_handle = K.DLT_NULL then .returned "LINKTYPE_NULL"
        else if pcap_datalink slot.pcap_handle = K.DLT_EN10MB then .returned "LINKTYPE_ETHERNET"
        else if pcap_datalink slot.pcap_handle = K.DLT_IEEE802_11_RADIO then
          .returned "LINKTYPE_IEEE802_11_RADIO"
        else if pcap_datalink slot.pcap_handle = K.DLT_RAW then .returned "LINKTYPE_RAW"
        else .returned (snprintf K.PCAP_ERRBUF_SIZE
          ("Unknown linktype " ++ fmt_d (pcap_datalink slot.pcap_handle))) := by
  simp [LinkType, arg, IsInt32_number id hid, Int32Value_number id hid, hslot, hopen]

/-- C9: for a registered, open session whose link-layer type libpcap reports
as the `int` `N`, `LinkType` returns a string and throws nothing: the name
`LINKTYPE_NULL`, `LINKTYPE_ETHERNET`, `LINKTYPE_IEEE802_11_RADIO` or
`LINKTYPE_RAW` when `N` is `DLT_NULL`, `DLT_EN10MB`, `DLT_IEEE802_11_RADIO` or
`DLT_RAW`, and for every other `N` the string `Unknown linktype ` followed by
the decimal representation of `N` (`toString N`, the standard rendering of an
integer), which therefore contains that representation.  The four constants
are distinct (they label one `switch`) and the error buffer has room for the
28 characters of the longest text. -/
theorem LinkType_names (K : Consts) (w : World) (id : Int) (slot : pcap_session_data)
    (pcap_datalink : Nat → Int) (N : Int)
    (hid : -2147483648 ≤ id ∧ id < 2147483648)
    (hslot : lookup w.sessions id = some slot)
    (hopen : slot.pcap_handle ∉ w.released)
    (hN : pcap_datalink slot.pcap_handle = N)
    (hint : -2147483648 ≤ N ∧ N < 2147483648)
    (hlabels : [K.DLT_NULL, K.DLT_EN10MB, K.DLT_IEEE802_11_RADIO, K.DLT_RAW].Nodup)
    (hsize : 29 ≤ K.PCAP_ERRBUF_SIZE) :
    ∃ name : String, LinkType K [.number id] pcap_datalink w = .returned name
      ∧ (N = K.DLT_NULL → name = "LINKTYPE_NULL")
      ∧ (N = K.DLT_EN10MB → name = "LINKTYPE_ETHERNET")
      ∧ (N = K.DLT_IEEE802_11_RADIO → name = "LINKTYPE_IEEE802_11_RADIO")
      ∧ (N = K.DLT_RAW → name = "LINKTYPE_RAW")
      ∧ (N ≠ K.DLT_NULL → N ≠ K.DLT_EN10MB → N ≠ K.DLT_IEEE802_11_RADIO → N ≠ K.DLT_RAW →
          name = "Unknown linktype " ++ toString N ∧ (toString N).data <:+: name.data) := by
  rw [LinkType_valid K w id slot pcap_datalink hid hslot hopen, hN]
  simp only [List.nodup_cons, List.mem_cons, List.mem_singleton, not_or, List.not_mem_nil,
    not_false_eq_true, List.nodup_nil, and_true] at hlabels
  obtain ⟨⟨h01, h02, h03⟩, ⟨h12, h13⟩, h23⟩ := hlabels
  by_cases c0 : N = K.DLT_NULL
  · refine ⟨"LINKTYPE_NULL", by rw [if_pos c0], fun _ => rfl, ?_, ?_, ?_, ?_⟩
    · intro c; exact absurd (c0.symm.trans c) h01
    · intro c; exact absurd (c0.symm.trans c) h02
    · intro c; exact absurd (c0.symm.trans c) h03
    · intro c; exact absurd c0 c
  by_cases c1 : N = K.DLT_EN10MB
  · refine ⟨"LINKTYPE_ETHERNET", by rw [if_neg c0, if_pos c1], ?_, fun _ => rfl, ?_, ?_, ?_⟩
    · intro c; exact absurd c c0
    · intro c; exact absurd (c1.symm.trans c) h12
    · intro c; exact absurd (c1.symm.trans c) h13
    · intro _ c; exact absurd c1 c
  by_cases c2 : N = K.DLT_IEEE802_11_RADIO
  · refine ⟨"LINKTYPE_IEEE802_11_RADIO", by rw [if_neg c0, if_neg c1, if_pos c2], ?_, ?_,
      fun _ => rfl, ?_, ?_⟩
    · intro c; exact absurd c c0
    · intro c; exact absurd c c1
    · intro c; exact absurd (c2.symm.trans c) h23
    · intro _ _ c; exact absurd c2 c
  by_cases c3 : N = K.DLT_RAW
  · refine ⟨"LINKTYPE_RAW", by rw [if_neg c0, if_neg c1, if_neg c2, if_pos c3], ?_, ?_, ?_,
      fun _ => rfl, ?_⟩
    · intro c; exact absurd c c0
    · intro c; exact absurd c c1
    · intro c; exact absurd c c2
    · intro _ _ _ c; exact absurd c3 c
  · have hfit : snprintf K.PCAP_ERRBUF_SIZE ("Unknown linktype " ++ fmt_d N)
        = "Unknown linktype " ++ fmt_d N := by
      apply snprintf_fits
      have h1 := fmt_d_length N hint
      have h2 : ("Unknown linktype " : String).length = 17 := rfl
      rw [String.length_append]
      omega
    refine ⟨"Unknown linktype " ++ fmt_d N,
      by rw [if_neg c0, if_neg c1, if_neg c2, if_neg c3, hfit], ?_, ?_, ?_, ?_, ?_⟩
    · intro c; exact absurd c c0
    · intro c; exact absurd c c1
    · intro c; exact absurd c c2
    · intro c; exact absurd c c3
    · intro _ _ _ _
      rw [fmt_d_eq_toString N, String.data_append]
      exact ⟨rfl, (List.suffix_append _ _).isInfix⟩

/-- Witness for `LinkType_names`: session 0 of `oneSession` with the link
types 1 (Ethernet on Linux), 113 and -3, the last two unknown to the binding. -/
theorem LinkType_names_witness :
    LinkType Consts.linux [.number 0] (fun _ => 1) oneSession = .returned "LINKTYPE_ETHERNET"
      ∧ LinkType Consts.linux [.number 0] (fun _ => 113) oneSession
          = .returned "Unknown linktype 113"
      ∧ LinkType Consts.linux [.number 0] (fun _ => -3) oneSession
          = .returned "Unknown linktype -3" := by
  obtain ⟨name, h, _, h1, _, _, _⟩ := LinkType_names Consts.linux oneSession 0
    ⟨0, 0, ⟨"", 1, 0⟩, 7, 0, 0, 0⟩ (fun _ => 1) 1 (by decide) (by decide) (by decide) rfl
    (by decide) (by decide) (by decide)
  obtain ⟨name2, k, _, _, _, _, k1⟩ := LinkType_names Consts.linux oneSession 0
    ⟨0, 0, ⟨"", 1, 0⟩, 7, 0, 0, 0⟩ (fun _ => 113) 113 (by decide) (by decide) (by decide) rfl
    (by decide) (by decide) (by decide)
  obtain ⟨name3, m, _, _, _, _, m1⟩ := LinkType_names Consts.linux oneSession 0
    ⟨0, 0, ⟨"", 1, 0⟩, 7, 0, 0, 0⟩ (fun _ => -3) (-3) (by decide) (by decide) (by decide) rfl
    (by decide) (by decide) (by decide)
  refine ⟨by rw [h, h1 rfl], ?_, ?_⟩
  · rw [k, (k1 (by decide) (by decide) (by decide) (by decide)).1]
    rfl
  · rw [m, (m1 (by decide) (by decide) (by decide) (by decide)).1]
    rfl

/-! ## The default device -/

theorem DefaultDevice.scan_of_addr (K : Consts) (addrs : List pcap_addr)
    (h : ∀ a ∈ addrs, a.addr ≠ none) :
    DefaultDevice.scan K addrs = some (addrs.any (fun a => a.addr == some ⟨K.AF_INET⟩)) := by
  induction addrs with
  | nil => rfl
  | cons a rest ih =>
    have ha := h a (List.mem_cons_self a rest)
    have hr := ih (fun b hb => h b (List.mem_cons_of_mem a hb))
    cases haddr : a.addr with
    | none => exact absurd haddr ha
    | some sa =>
      cases sa with
      | mk fam =>
        by_cases hf : fam = K.AF_INET
        · simp [DefaultDevice.scan, haddr, hf]
        · have hne : (some (sockaddr.mk fam) == some (sockaddr.mk K.AF_INET)) = false := by
            simp [hf]
          simp [DefaultDevice.scan, haddr, hf, hr, hne]

theorem DefaultDevice.loop_skips (K : Consts) (dev : pcap_if) (rest : List pcap_if)
    (hno : isCandidate K dev = false) (haddr : ∀ a ∈ dev.addresses, a.addr ≠ none) :
    DefaultDevice.loop K (dev :: rest) = DefaultDevice.loop K rest := by
  by_cases hc : dev.addresses ≠ [] ∧ dev.flags &&& K.PCAP_IF_LOOPBACK = 0
  · have hany : dev.addresses.any (fun a => a.addr == some ⟨K.AF_INET⟩) = false := by
      simpa [isCandidate, hc.2] using hno
    simp only [DefaultDevice.loop, if_pos hc, DefaultDevice.scan_of_addr K dev.addresses haddr,
      hany]
  · simp only [DefaultDevice.loop, if_neg hc]

theorem DefaultDevice.loop_takes (K : Consts) (dev : pcap_if) (rest : List pcap_if)
    (hyes : isCandidate K dev = true) (haddr : ∀ a ∈ dev.addresses, a.addr ≠ none) :
    DefaultDevice.loop K (dev :: rest) = .returned (some dev.name) := by
  simp only [isCandidate, Bool.and_eq_true, beq_iff_eq] at hyes
  have hne : dev.addresses ≠ [] := by
    intro h
    rw [h] at hyes
    simp at hyes
  simp only [DefaultDevice.loop, if_pos (And.intro hne hyes.1),
    DefaultDevice.scan_of_addr K dev.addresses haddr, hyes.2]

/-- On device lists in which every address entry has an address, the default
guess is what the specification says: the name of the first device that is not
flagged loopback and has an `AF_INET` address; the devices before it are
skipped. -/
theorem DefaultDevice_first_candidate (K : Consts) (rc : Int) (before : List pcap_if)
    (dev : pcap_if) (after : List pcap_if) (errbuf : String)
    (hrc : rc ≠ -1)
    (hbefore : ∀ d ∈ before, isCandidate K d = false)
    (hdev : isCandidate K dev = true)
    (haddr : ∀ d ∈ before ++ [dev], ∀ a ∈ d.addresses, a.addr ≠ none) :
    DefaultDevice K rc (before ++ dev :: after) errbuf = .returned (some dev.name) := by
  have hloop : DefaultDevice.loop K (before ++ dev :: after) = .returned (some dev.name) := by
    induction before with
    | nil => exact DefaultDevice.loop_takes K dev after hdev (haddr dev (by simp))
    | cons d ds ih =>
      rw [List.cons_append, DefaultDevice.loop_skips K d _ (hbefore d (by simp))
        (haddr d (by simp))]
      exact ih (fun x hx => hbefore x (List.mem_cons_of_mem d hx))
        (fun x hx => haddr x (by simp at hx ⊢; tauto))
  unfold DefaultDevice
  rw [if_neg (by simp [hrc]), hloop]

/-- Witness for `DefaultDevice_first_candidate`: in `ethernetLast` the guess is
`eth0`, after the loopback device, the device without addresses and the device
with only an IPv6 address. -/
theorem DefaultDevice_first_candidate_witness :
    DefaultDevice Consts.linux 0 ethernetLast "" = .returned (some "eth0") :=
  DefaultDevice_first_candidate Consts.linux 0
    [⟨"lo", none, [⟨some ⟨2⟩, some ⟨2⟩, none, none⟩], 1⟩, ⟨"usb0", none, [], 0⟩,
     ⟨"wlan0", none, [⟨some ⟨10⟩, some ⟨10⟩, none, none⟩], 0⟩]
    ⟨"eth0", none, [⟨some ⟨10⟩, none, none, none⟩, ⟨some ⟨2⟩, some ⟨2⟩, some ⟨2⟩, none⟩], 0⟩
    [⟨"eth1", none, [⟨some ⟨2⟩, some ⟨2⟩, some ⟨2⟩, none⟩], 0⟩] ""
    (by decide) (by decide) (by decide) (by decide)

/-- C10: on `tunnelFirst` the claim asks for `eth0`, the first device that is
not loopback and has an IPv4 address.  `DefaultDevice` never gets there: at
`tun0` it reads `addr->addr->sa_family` through the null `addr`, which is
undefined behaviour.  `FindAllDevs` tests the pointer first and passes over
the same entry. -/
theorem DefaultDevice_null_addr :
    tunnelFirst.map (isCandidate Consts.linux) = [false, true]
      ∧ DefaultDevice Consts.linux 0 tunnelFirst "" = .undefinedBehavior
      ∧ FindAllDevs.reports Consts.linux ⟨none, none, none, none⟩ = false := by
  refine ⟨by decide, by decide, by decide⟩

end PcapBinding
